import Mathlib

/-!
Shallow embedding of the leader-side Raft bookkeeping of `src/raft/tracker.hh`
(ScyllaDB's Raft implementation): per-follower replication progress
(`follower_progress`), the commit-index computation of the progress `tracker`,
and election vote tallying (`election_tracker`, `votes`).

Server ids and log indices (`server_id`, `index_t`) are opaque identifiers /
64-bit indices in the source; they are embedded as `Nat`.  Unordered sets
become `Finset Nat`.
-/

namespace RaftTracker

/-- Possible leader election outcomes (`enum class vote_result`). -/
inductive vote_result where
  | UNKNOWN
  | WON
  | LOST
deriving DecidableEq, Repr

/-- Replication flow-control states of a follower
(`enum class follower_progress::state`). -/
inductive fstate where
  | PROBE
  | PIPELINE
  | SNAPSHOT
deriving DecidableEq, Repr

/-- Leader's view of one follower (`class follower_progress`).  Field defaults
mirror the in-class initializers of the C++ source. -/
structure follower_progress where
  id : Nat
  next_idx : Nat
  match_idx : Nat := 0
  commit_idx : Nat := 0
  state : fstate := fstate.PROBE
  probe_sent : Bool := false
  in_flight : Nat := 0
deriving DecidableEq, Repr

/-- `follower_progress::max_in_flight = 10` (static constexpr in the source). -/
def max_in_flight : Nat := 10

/-- The constructor `follower_progress(server_id id_arg, index_t next_idx_arg)`:
all other fields take their in-class defaults. -/
def follower_progress.make (id_arg next_idx_arg : Nat) : follower_progress :=
  { id := id_arg, next_idx := next_idx_arg }

/-- `follower_progress::accepted(idx)`:
`match_idx = std::max(idx, match_idx); next_idx = std::max(idx + 1, next_idx)`. -/
def follower_progress.accepted (fp : follower_progress) (idx : Nat) :
    follower_progress :=
  { fp with
    match_idx := max idx fp.match_idx,
    next_idx := max (idx + 1) fp.next_idx }

/-- Fold a sequence of `accepted` acknowledgments over a progress record. -/
def follower_progress.acceptedSeq (fp : follower_progress) (l : List Nat) :
    follower_progress :=
  l.foldl follower_progress.accepted fp

/-- Modelled from the spec: `follower_progress::can_send_to()` is only
declared in `tracker.hh` (its body lives in a source file not present here).
Spec §4.1: in `Probe`, true only if no probe is currently outstanding
(`!probe_sent`); in `Pipeline`, true iff `in_flight < max_in_flight`; in
`Snapshot`, false. -/
def follower_progress.can_send_to (fp : follower_progress) : Bool :=
  match fp.state with
  | fstate.PROBE => !fp.probe_sent
  | fstate.PIPELINE => decide (fp.in_flight < max_in_flight)
  | fstate.SNAPSHOT => false

/-- One entry of a `server_address_set`: a server id together with its
`can_vote` flag (the only parts of `server_address` the tracker reads). -/
structure server_address where
  id : Nat
  can_vote : Bool
deriving DecidableEq, Repr

/-- State of election in a single quorum (`class election_tracker`). -/
structure election_tracker where
  suffrage : Finset Nat
  responded : Finset Nat
  granted : Nat
deriving DecidableEq

/-- The `election_tracker(const server_address_set& configuration)`
constructor: collect the ids of the voting members; no votes yet. -/
def election_tracker.init (configuration : List server_address) :
    election_tracker :=
  { suffrage := ((configuration.filter (fun a => a.can_vote)).map
      (fun a => a.id)).toFinset,
    responded := ∅,
    granted := 0 }

/-- `election_tracker::register_vote(from, granted)`: returns `false` and
changes nothing when `from` is outside the suffrage; otherwise records the
vote if it is the first from this id (`_responded.emplace(from).second`) and
returns `true`. -/
def election_tracker.register_vote (t : election_tracker) (fromId : Nat)
    (granted : Bool) : election_tracker × Bool :=
  if fromId ∈ t.suffrage then
    if fromId ∈ t.responded then
      (t, true)
    else
      ({ t with
          responded := insert fromId t.responded,
          granted := t.granted + (if granted then 1 else 0) }, true)
  else
    (t, false)

/-- `election_tracker::tally_votes()`.  The C++ `assert(_responded.size() <=
_suffrage.size())` guarding the unsigned subtraction is embedded as the
`none` branch: `none` models the assertion firing. -/
def election_tracker.tally_votes (t : election_tracker) : Option vote_result :=
  let quorum := t.suffrage.card / 2 + 1
  if quorum ≤ t.granted then
    some vote_result.WON
  else if t.responded.card ≤ t.suffrage.card then
    let unknown := t.suffrage.card - t.responded.card
    some (if quorum ≤ t.granted + unknown then vote_result.UNKNOWN
          else vote_result.LOST)
  else
    none

/-- Run a whole sequence of `register_vote` calls (id, granted) against the
tracker built from `configuration`. -/
def election_tracker.run (configuration : List server_address)
    (calls : List (Nat × Bool)) : election_tracker :=
  calls.foldl (fun t c => (t.register_vote c.1 c.2).1)
    (election_tracker.init configuration)

/-- The claim's formulation of `tally_votes` (spec §4.3): `Won` if
`granted ≥ quorum`; otherwise `Lost` if even all not-yet-responded members
voting affirmatively could not reach quorum; otherwise `Unknown`. -/
def tally_votes_claim (t : election_tracker) : vote_result :=
  let quorum := t.suffrage.card / 2 + 1
  if quorum ≤ t.granted then vote_result.WON
  else if t.granted + (t.suffrage.card - t.responded.card) < quorum then
    vote_result.LOST
  else vote_result.UNKNOWN

/-- Candidate's election state (`class votes`): the tracker of the current
configuration and, during joint consensus, the tracker of the previous one. -/
structure votes where
  current : election_tracker
  previous : Option election_tracker

/-- Modelled from the spec: the joint outcome rule of `votes::tally_votes()`,
whose body is in a source file not present here.  Spec §4.4: `Won` only if
both report `Won`; `Lost` if either reports `Lost`; otherwise `Unknown`. -/
def joint_result (a b : vote_result) : vote_result :=
  if a = vote_result.WON ∧ b = vote_result.WON then vote_result.WON
  else if a = vote_result.LOST ∨ b = vote_result.LOST then vote_result.LOST
  else vote_result.UNKNOWN

/-- Modelled from the spec: `votes::tally_votes()` is only declared in
`tracker.hh`.  Spec §4.4: with no `previous`, return `current.tally_votes()`
directly; otherwise combine the two independent tallies with the joint rule.
A failed assertion (`none`) in either underlying tally propagates. -/
def votes.tally_votes (v : votes) : Option vote_result :=
  match v.previous with
  | none => v.current.tally_votes
  | some p =>
    match v.current.tally_votes, p.tally_votes with
    | some a, some b => some (joint_result a b)
    | _, _ => none

/-- Quorum size for a voter set of size `n`: strict majority `⌊n/2⌋+1`. -/
def commitQuorum (n : Nat) : Nat := n / 2 + 1

/-- Number of match indices in `ms` that are at least `x`. -/
def matchCount (ms : List Nat) (x : Nat) : Nat :=
  ms.countP (fun m => decide (x ≤ m))

/-- Modelled from the spec: the majority index over one voter set, the heart
of `tracker::committed` (only declared in `tracker.hh`).  Spec §4.2: "the
candidate commit index is the largest index `X` such that a strict majority
(`⌊n/2⌋+1` out of `n`) of members have `match_idx ≥ X`".  Any feasible `X`
is bounded by some member's match index, so maximizing over the candidates
`0 :: ms` realizes that largest `X`. -/
def majorityIdx (ms : List Nat) : Nat :=
  ((0 :: ms).filter
    (fun x => decide (commitQuorum ms.length ≤ matchCount ms x))).foldr max 0

/-- The progress `tracker`, abstracted to what `committed` reads from it: the
multiset of `match_idx` values of the current voters and of the previous
voters (`previous_matches = []` outside a joint configuration). -/
structure tracker where
  current_matches : List Nat
  previous_matches : List Nat
deriving DecidableEq, Repr

/-- Modelled from the spec: `tracker::committed(prev_commit_idx)` is only
declared in `tracker.hh`.  Spec §4.2: the majority index over the current
voters; if `previous_voters` is non-empty (joint configuration), the minimum
of that and the majority index over the previous voters. -/
def tracker.committed (t : tracker) (prev_commit_idx : Nat) : Nat :=
  let _ := prev_commit_idx
  if t.previous_matches.isEmpty then
    majorityIdx t.current_matches
  else
    min (majorityIdx t.current_matches) (majorityIdx t.previous_matches)

/-! ## Helper lemmas -/

theorem le_foldr_max (l : List Nat) (x : Nat) (hx : x ∈ l) :
    x ≤ l.foldr max 0 := by
  induction l with
  | nil => cases hx
  | cons a l ih =>
    simp only [List.foldr_cons]
    rcases List.mem_cons.mp hx with rfl | h
    · exact Nat.le_max_left _ _
    · exact le_trans (ih h) (Nat.le_max_right _ _)

theorem foldr_max_mem_cons (l : List Nat) : l.foldr max 0 ∈ 0 :: l := by
  induction l with
  | nil => simp
  | cons a l ih =>
    simp only [List.foldr_cons]
    rcases max_choice a (l.foldr max 0) with h | h
    · rw [h]
      exact List.mem_cons_of_mem _ (List.mem_cons_self _ _)
    · rw [h]
      rcases List.mem_cons.mp ih with h0 | hl
      · rw [h0]
        exact List.mem_cons_self _ _
      · exact List.mem_cons_of_mem _ (List.mem_cons_of_mem _ hl)

/-- Any nonempty subset of a list of naturals cut out by a lower bound `x`
has a least element. -/
theorem exists_min_sat (ms : List Nat) (x : Nat) (h : ∃ e ∈ ms, x ≤ e) :
    ∃ m ∈ ms, x ≤ m ∧ ∀ e ∈ ms, x ≤ e → m ≤ e := by
  induction ms with
  | nil => obtain ⟨e, he, _⟩ := h; cases he
  | cons a l ih =>
    by_cases hl : ∃ e ∈ l, x ≤ e
    · obtain ⟨m, hm, hxm, hmin⟩ := ih hl
      by_cases hxa : x ≤ a
      · by_cases ham : a ≤ m
        · refine ⟨a, List.mem_cons_self _ _, hxa, ?_⟩
          intro e he hxe
          rcases List.mem_cons.mp he with rfl | he'
          · exact le_refl _
          · exact le_trans ham (hmin e he' hxe)
        · refine ⟨m, List.mem_cons_of_mem _ hm, hxm, ?_⟩
          intro e he hxe
          rcases List.mem_cons.mp he with rfl | he'
          · omega
          · exact hmin e he' hxe
      · refine ⟨m, List.mem_cons_of_mem _ hm, hxm, ?_⟩
        intro e he hxe
        rcases List.mem_cons.mp he with rfl | he'
        · exact absurd hxe hxa
        · exact hmin e he' hxe
    · obtain ⟨e, he, hxe⟩ := h
      rcases List.mem_cons.mp he with rfl | he'
      · refine ⟨e, List.mem_cons_self _ _, hxe, ?_⟩
        intro e2 he2 hxe2
        rcases List.mem_cons.mp he2 with rfl | he2'
        · exact le_refl _
        · exact absurd ⟨e2, he2', hxe2⟩ hl
      · exact absurd ⟨e, he', hxe⟩ hl

/-- Raising the threshold to the least matching element cannot decrease the
count of members above the threshold. -/
theorem matchCount_mono_min (ms : List Nat) (x m : Nat)
    (hmin : ∀ e ∈ ms, x ≤ e → m ≤ e) : matchCount ms x ≤ matchCount ms m := by
  unfold matchCount
  refine List.countP_mono_left ?_
  intro e he hp
  simp only [decide_eq_true_eq] at hp ⊢
  exact hmin e he hp

theorem matchCount_zero (ms : List Nat) : matchCount ms 0 = ms.length := by
  unfold matchCount
  exact List.countP_eq_length.mpr (fun a _ => by simp)

/-- `majorityIdx ms` really is the largest index reached by a strict
majority of the (nonempty) voter set `ms`. -/
theorem majorityIdx_isGreatest (ms : List Nat) (h : ms ≠ []) :
    IsGreatest {x : Nat | commitQuorum ms.length ≤ matchCount ms x}
      (majorityIdx ms) := by
  have hlen : 1 ≤ ms.length := List.length_pos.mpr h
  have hqn : commitQuorum ms.length ≤ ms.length := by
    unfold commitQuorum
    omega
  have h0 : commitQuorum ms.length ≤ matchCount ms 0 := by
    rw [matchCount_zero]
    exact hqn
  constructor
  · show commitQuorum ms.length ≤ matchCount ms (majorityIdx ms)
    unfold majorityIdx
    rcases List.mem_cons.mp (foldr_max_mem_cons
      ((0 :: ms).filter
        (fun x => decide (commitQuorum ms.length ≤ matchCount ms x)))) with hz | hf
    · rw [hz]
      exact h0
    · have := (List.mem_filter.mp hf).2
      simpa using this
  · intro x hx
    simp only [Set.mem_setOf_eq] at hx
    have hpos : 0 < matchCount ms x := by
      have : 0 < commitQuorum ms.length := by unfold commitQuorum; omega
      omega
    have hex : ∃ e ∈ ms, x ≤ e := by
      obtain ⟨e, he, hp⟩ := List.countP_pos_iff.mp hpos
      exact ⟨e, he, by simpa using hp⟩
    obtain ⟨m, hm, hxm, hmin⟩ := exists_min_sat ms x hex
    have hcm : commitQuorum ms.length ≤ matchCount ms m :=
      le_trans hx (matchCount_mono_min ms x m hmin)
    have hmf : m ∈ (0 :: ms).filter
        (fun y => decide (commitQuorum ms.length ≤ matchCount ms y)) :=
      List.mem_filter.mpr ⟨List.mem_cons_of_mem _ hm, by simpa using hcm⟩
    exact le_trans hxm (le_foldr_max _ _ hmf)

/-- Any sequence of `accepted` acknowledgments leaves `match_idx` and
`next_idx` at least as large as they were. -/
theorem fp_seq_mono (l : List Nat) :
    ∀ fp : follower_progress,
      fp.match_idx ≤ (fp.acceptedSeq l).match_idx ∧
      fp.next_idx ≤ (fp.acceptedSeq l).next_idx := by
  induction l with
  | nil => intro fp; exact ⟨le_refl _, le_refl _⟩
  | cons a l ih =>
    intro fp
    have h := ih (fp.accepted a)
    unfold follower_progress.acceptedSeq at h ⊢
    simp only [List.foldl_cons]
    have h1 : fp.match_idx ≤ (fp.accepted a).match_idx := by
      simp only [follower_progress.accepted]
      exact Nat.le_max_right _ _
    have h2 : fp.next_idx ≤ (fp.accepted a).next_idx := by
      simp only [follower_progress.accepted]
      exact Nat.le_max_right _ _
    exact ⟨le_trans h1 h.1, le_trans h2 h.2⟩

/-- The counting invariant of an `election_tracker`. -/
def et_inv (t : election_tracker) : Prop :=
  t.granted ≤ t.responded.card ∧ t.responded ⊆ t.suffrage

theorem register_vote_inv (t : election_tracker) (f : Nat) (g : Bool)
    (h : et_inv t) : et_inv (t.register_vote f g).1 := by
  unfold election_tracker.register_vote
  split
  · rename_i hs
    split
    · exact h
    · rename_i hr
      refine ⟨?_, Finset.insert_subset hs h.2⟩
      simp only [Finset.card_insert_of_not_mem hr]
      have := h.1
      cases g <;> simp <;> omega
  · exact h

theorem init_inv (cfg : List server_address) :
    et_inv (election_tracker.init cfg) := by
  simp [et_inv, election_tracker.init]

theorem foldl_inv (calls : List (Nat × Bool)) :
    ∀ t : election_tracker, et_inv t →
      et_inv (calls.foldl (fun t c => (t.register_vote c.1 c.2).1) t) := by
  induction calls with
  | nil => intro t h; exact h
  | cons c cs ih => intro t h; exact ih _ (register_vote_inv _ _ _ h)

theorem suffrage_empty_register (t : election_tracker) (f : Nat) (g : Bool)
    (h : t.suffrage = ∅) : t.register_vote f g = (t, false) := by
  unfold election_tracker.register_vote
  rw [h]
  simp

theorem foldl_empty_suffrage (calls : List (Nat × Bool)) :
    ∀ t : election_tracker, t.suffrage = ∅ →
      calls.foldl (fun t c => (t.register_vote c.1 c.2).1) t = t := by
  induction calls with
  | nil => intro t h; rfl
  | cons c cs ih =>
    intro t h
    simp only [List.foldl_cons, suffrage_empty_register t c.1 c.2 h]
    exact ih t h

/-! ## Claim theorems -/

/-- Claim C1: for every tracker and every `prev_commit_idx`,
`committed(prev_commit_idx)` returns the largest index `X` such that a
strict majority (`⌊n/2⌋+1` of `n = |current_voters|`) of the current voters
have `match_idx ≥ X`; when `previous_voters` is non-empty, the result is the
minimum of that index and the analogous majority index computed
independently over `previous_voters`. -/
theorem C1_committed_majority_min (t : tracker) (pci : Nat)
    (hcur : t.current_matches ≠ []) :
    (t.previous_matches = [] →
      IsGreatest {x : Nat | commitQuorum t.current_matches.length ≤
        matchCount t.current_matches x} (t.committed pci)) ∧
    (t.previous_matches ≠ [] →
      t.committed pci =
        min (majorityIdx t.current_matches) (majorityIdx t.previous_matches) ∧
      IsGreatest {x : Nat | commitQuorum t.current_matches.length ≤
        matchCount t.current_matches x} (majorityIdx t.current_matches) ∧
      IsGreatest {x : Nat | commitQuorum t.previous_matches.length ≤
        matchCount t.previous_matches x} (majorityIdx t.previous_matches)) := by
  constructor
  · intro hp
    have he : t.committed pci = majorityIdx t.current_matches := by
      unfold tracker.committed
      simp [hp]
    rw [he]
    exact majorityIdx_isGreatest _ hcur
  · intro hp
    refine ⟨?_, majorityIdx_isGreatest _ hcur, majorityIdx_isGreatest _ hp⟩
    unfold tracker.committed
    simp [List.isEmpty_iff, hp]

/-- Witness for C1: the spec's joint-configuration example — the current
voters reach majority index 10, the previous voters reach 7, and `committed`
returns the minimum, 7. -/
theorem C1_committed_majority_min_witness :
    (tracker.mk [10, 10, 10, 5, 5] [7, 7, 7]).current_matches ≠ [] ∧
    (tracker.mk [10, 10, 10, 5, 5] [7, 7, 7]).committed 0 =
      min (majorityIdx [10, 10, 10, 5, 5]) (majorityIdx [7, 7, 7]) ∧
    (tracker.mk [10, 10, 10, 5, 5] [7, 7, 7]).committed 0 = 7 :=
  ⟨by decide,
   ((C1_committed_majority_min (tracker.mk [10, 10, 10, 5, 5] [7, 7, 7]) 0
      (by decide)).2 (by decide)).1,
   by decide⟩

/-- Claim C2: for every `election_tracker` (satisfying the documented
counting invariant `|responded| ≤ |suffrage|`), `tally_votes()` returns
`WON` if `granted ≥ |suffrage|/2 + 1`; otherwise `LOST` if
`granted + (|suffrage| - |responded|) < |suffrage|/2 + 1`; otherwise
`UNKNOWN`. -/
theorem C2_tally_votes_threeway (t : election_tracker)
    (h : t.responded.card ≤ t.suffrage.card) :
    t.tally_votes = some (tally_votes_claim t) := by
  by_cases hA : t.suffrage.card / 2 + 1 ≤ t.granted
  · simp [election_tracker.tally_votes, tally_votes_claim, hA]
  · by_cases hB : t.granted + (t.suffrage.card - t.responded.card) <
        t.suffrage.card / 2 + 1
    · simp [election_tracker.tally_votes, tally_votes_claim, hA, hB, h,
        Nat.not_le, Nat.not_lt]
    · simp [election_tracker.tally_votes, tally_votes_claim, hA, hB, h,
        Nat.not_le, Nat.not_lt]

/-- Example tracker for the C2 witness: five suffrage members, three
affirmative votes. -/
def w2t : election_tracker :=
  election_tracker.run
    [⟨1, true⟩, ⟨2, true⟩, ⟨3, true⟩, ⟨4, true⟩, ⟨5, true⟩]
    [(1, true), (2, true), (3, true)]

/-- Witness for C2: the spec's example — five suffrage members with three
affirmative votes tally to `WON`. -/
theorem C2_tally_votes_threeway_witness :
    w2t.responded.card ≤ w2t.suffrage.card ∧
    w2t.tally_votes = some (tally_votes_claim w2t) ∧
    tally_votes_claim w2t = vote_result.WON :=
  ⟨by decide, C2_tally_votes_threeway w2t (by decide), by decide⟩

/-- Claim C3: for every `votes` tracker, with no `previous` the tally is
`current.tally_votes()`; with a `previous` present, the result is `WON` iff
both report `WON`, `LOST` if either reports `LOST`, and `UNKNOWN`
otherwise. -/
theorem C3_votes_joint_tally (v : votes) :
    (v.previous = none → v.tally_votes = v.current.tally_votes) ∧
    (∀ p a b, v.previous = some p → v.current.tally_votes = some a →
      p.tally_votes = some b →
      ((v.tally_votes = some vote_result.WON ↔
         (a = vote_result.WON ∧ b = vote_result.WON)) ∧
       ((a = vote_result.LOST ∨ b = vote_result.LOST) →
         v.tally_votes = some vote_result.LOST) ∧
       (¬(a = vote_result.WON ∧ b = vote_result.WON) →
        ¬(a = vote_result.LOST ∨ b = vote_result.LOST) →
        v.tally_votes = some vote_result.UNKNOWN))) := by
  constructor
  · intro h
    simp [votes.tally_votes, h]
  · intro p a b hp ha hb
    simp only [votes.tally_votes, hp, ha, hb]
    cases a <;> cases b <;> simp [joint_result]

/-- Tracker tallying `WON` for the C3 witness. -/
def w3won : election_tracker := ⟨{1, 2, 3}, {1, 2}, 2⟩

/-- Tracker tallying `LOST` for the C3 witness. -/
def w3lost : election_tracker := ⟨{1, 2, 3}, {1, 2, 3}, 0⟩

/-- Joint `votes` value for the C3 witness. -/
def w3v : votes := ⟨w3won, some w3lost⟩

/-- Witness for C3: the spec's example — current tallies `WON`, previous
tallies `LOST`, so the joint outcome is `LOST`. -/
theorem C3_votes_joint_tally_witness :
    w3v.current.tally_votes = some vote_result.WON ∧
    w3lost.tally_votes = some vote_result.LOST ∧
    w3v.tally_votes = some vote_result.LOST :=
  ⟨by decide, by decide,
   ((C3_votes_joint_tally w3v).2 w3lost vote_result.WON vote_result.LOST
      rfl (by decide) (by decide)).2.1 (Or.inr rfl)⟩

/-- Claim C4: after `accepted(idx)`, `match_idx = max(old match_idx, idx)`
and `next_idx = max(idx + 1, old next_idx)`; consequently both fields are
non-decreasing under any sequence of `accepted` calls. -/
theorem C4_accepted_monotone (fp : follower_progress) (idx : Nat)
    (l : List Nat) :
    ((fp.accepted idx).match_idx = max fp.match_idx idx ∧
     (fp.accepted idx).next_idx = max (idx + 1) fp.next_idx) ∧
    fp.match_idx ≤ (fp.acceptedSeq l).match_idx ∧
    fp.next_idx ≤ (fp.acceptedSeq l).next_idx :=
  ⟨⟨by simp [follower_progress.accepted, Nat.max_comm], rfl⟩, fp_seq_mono l fp⟩

/-- Claim C5: a `follower_progress` constructed with strictly positive
`next_idx` satisfies `match_idx < next_idx`, and `accepted(idx)` preserves
that invariant. -/
theorem C5_match_lt_next (idArg n : Nat) (hn : 0 < n)
    (fp : follower_progress) (hfp : fp.match_idx < fp.next_idx) (idx : Nat) :
    (follower_progress.make idArg n).match_idx <
      (follower_progress.make idArg n).next_idx ∧
    (fp.accepted idx).match_idx < (fp.accepted idx).next_idx := by
  refine ⟨hn, ?_⟩
  simp only [follower_progress.accepted]
  omega

/-- Witness for C5: constructing with `next_idx = 1` and acknowledging
index 5 keeps `match_idx < next_idx`. -/
theorem C5_match_lt_next_witness :
    0 < 1 ∧
    (follower_progress.make 0 1).match_idx <
      (follower_progress.make 0 1).next_idx ∧
    ((follower_progress.make 0 1).accepted 5).match_idx <
      ((follower_progress.make 0 1).accepted 5).next_idx :=
  ⟨by decide,
   (C5_match_lt_next 0 1 (by decide) (follower_progress.make 0 1)
      (by decide) 5).1,
   (C5_match_lt_next 0 1 (by decide) (follower_progress.make 0 1)
      (by decide) 5).2⟩

/-- Claim C6: `can_send_to()` is true in `PROBE` iff `probe_sent` is false,
in `PIPELINE` iff `in_flight < max_in_flight` with `max_in_flight = 10`,
and always false in `SNAPSHOT`. -/
theorem C6_can_send_to_cases (fp : follower_progress) :
    (fp.state = fstate.PROBE →
      (fp.can_send_to = true ↔ fp.probe_sent = false)) ∧
    (fp.state = fstate.PIPELINE →
      (fp.can_send_to = true ↔ fp.in_flight < max_in_flight)) ∧
    (fp.state = fstate.SNAPSHOT → fp.can_send_to = false) ∧
    max_in_flight = 10 := by
  obtain ⟨i, nx, m, c, st, ps, fl⟩ := fp
  cases st <;> simp [follower_progress.can_send_to, max_in_flight]

/-- Probe-state record for the C6 witness. -/
def w6probe : follower_progress := follower_progress.make 0 1

/-- Pipeline-state record for the C6 witness. -/
def w6pipe : follower_progress :=
  { follower_progress.make 0 1 with state := fstate.PIPELINE, in_flight := 3 }

/-- Snapshot-state record for the C6 witness. -/
def w6snap : follower_progress :=
  { follower_progress.make 0 1 with state := fstate.SNAPSHOT }

/-- Witness for C6: one concrete record per flow-control state. -/
theorem C6_can_send_to_cases_witness :
    (w6probe.can_send_to = true ↔ w6probe.probe_sent = false) ∧
    (w6pipe.can_send_to = true ↔ w6pipe.in_flight < max_in_flight) ∧
    w6snap.can_send_to = false :=
  ⟨(C6_can_send_to_cases w6probe).1 rfl,
   (C6_can_send_to_cases w6pipe).2.1 rfl,
   (C6_can_send_to_cases w6snap).2.2.1 rfl⟩

/-- Claim C7: a `register_vote` call for an id already recorded in
`responded` changes neither the tracker state nor the tally (idempotence
per voter), for either vote value. -/
theorem C7_register_vote_idempotent (t : election_tracker) (f : Nat)
    (g : Bool) (h : f ∈ t.responded) :
    (t.register_vote f g).1 = t ∧
    (t.register_vote f g).1.granted = t.granted ∧
    (t.register_vote f g).1.responded = t.responded ∧
    (t.register_vote f g).1.tally_votes = t.tally_votes := by
  have he : (t.register_vote f g).1 = t := by
    unfold election_tracker.register_vote
    split <;> simp [h]
  exact ⟨he, by rw [he], by rw [he], by rw [he]⟩

/-- Tracker for the C7 witness: member 1 has already voted affirmatively. -/
def w7t : election_tracker := ⟨{1, 2, 3}, {1}, 1⟩

/-- Witness for C7: a duplicate vote from member 1 changes nothing. -/
theorem C7_register_vote_idempotent_witness :
    1 ∈ w7t.responded ∧
    (w7t.register_vote 1 true).1 = w7t ∧
    (w7t.register_vote 1 true).1.tally_votes = w7t.tally_votes :=
  ⟨by decide,
   (C7_register_vote_idempotent w7t 1 true (by decide)).1,
   (C7_register_vote_idempotent w7t 1 true (by decide)).2.2.2⟩

/-- Claim C8: a vote from an id outside the suffrage returns the failure
indicator `false` and leaves the tracker unchanged, for either vote
value. -/
theorem C8_register_vote_unknown (t : election_tracker) (f : Nat) (g : Bool)
    (h : f ∉ t.suffrage) :
    t.register_vote f g = (t, false) := by
  unfold election_tracker.register_vote
  rw [if_neg h]

/-- Tracker for the C8 witness: member 2 is a non-voting member, so only
member 1 is in the suffrage. -/
def w8t : election_tracker :=
  election_tracker.init [⟨1, true⟩, ⟨2, false⟩]

/-- Witness for C8: votes from an unknown id (7) and from a non-voting
member (2) are both rejected and change nothing. -/
theorem C8_register_vote_unknown_witness :
    7 ∉ w8t.suffrage ∧ w8t.register_vote 7 true = (w8t, false) ∧
    2 ∉ w8t.suffrage ∧ w8t.register_vote 2 false = (w8t, false) :=
  ⟨by decide, C8_register_vote_unknown w8t 7 true (by decide),
   by decide, C8_register_vote_unknown w8t 2 false (by decide)⟩

/-- Claim C9: a tracker built from a configuration and fed any sequence of
`register_vote` calls satisfies `granted ≤ |responded| ≤ |suffrage|`; hence
the assertion inside `tally_votes` never fires (modelled: `tally_votes`
never returns `none`) and the unsigned subtraction never underflows. -/
theorem C9_vote_counts_invariant (cfg : List server_address)
    (calls : List (Nat × Bool)) :
    (election_tracker.run cfg calls).granted ≤
      (election_tracker.run cfg calls).responded.card ∧
    (election_tracker.run cfg calls).responded.card ≤
      (election_tracker.run cfg calls).suffrage.card ∧
    (election_tracker.run cfg calls).tally_votes ≠ none := by
  have h : et_inv (election_tracker.run cfg calls) :=
    foldl_inv calls _ (init_inv cfg)
  have hc := Finset.card_le_card h.2
  refine ⟨h.1, hc, ?_⟩
  by_cases hA : (election_tracker.run cfg calls).suffrage.card / 2 + 1 ≤
      (election_tracker.run cfg calls).granted
  · simp [election_tracker.tally_votes, hA]
  · simp [election_tracker.tally_votes, hA, hc]

/-- Claim C10: an `election_tracker` built from a configuration with no
voting members (empty suffrage) tallies `LOST` without the assertion
firing: the quorum evaluates to 1 while `granted` and the number of
not-yet-responded voters are both 0. -/
theorem C10_empty_suffrage_lost (cfg : List server_address)
    (calls : List (Nat × Bool)) (h : ∀ a ∈ cfg, a.can_vote = false) :
    (election_tracker.run cfg calls).suffrage.card / 2 + 1 = 1 ∧
    (election_tracker.run cfg calls).granted = 0 ∧
    (election_tracker.run cfg calls).suffrage.card -
      (election_tracker.run cfg calls).responded.card = 0 ∧
    (election_tracker.run cfg calls).responded.card ≤
      (election_tracker.run cfg calls).suffrage.card ∧
    (election_tracker.run cfg calls).tally_votes = some vote_result.LOST := by
  have hf : cfg.filter (fun a => a.can_vote) = [] := by
    rw [List.filter_eq_nil_iff]
    intro a ha
    simp [h a ha]
  have hs : (election_tracker.init cfg).suffrage = ∅ := by
    simp [election_tracker.init, hf]
  have hrun : election_tracker.run cfg calls = election_tracker.init cfg :=
    foldl_empty_suffrage calls _ hs
  rw [hrun]
  simp [election_tracker.init, election_tracker.tally_votes, hf]

/-- Witness for C10: a configuration whose single member cannot vote, with
one (rejected) vote registered, still tallies `LOST`. -/
theorem C10_empty_suffrage_lost_witness :
    (election_tracker.run [⟨1, false⟩] [(1, true)]).tally_votes =
      some vote_result.LOST ∧
    (election_tracker.run [⟨1, false⟩] [(1, true)]).suffrage.card / 2 + 1 = 1 ∧
    (election_tracker.run [⟨1, false⟩] [(1, true)]).granted = 0 :=
  ⟨(C10_empty_suffrage_lost [⟨1, false⟩] [(1, true)]
      (by decide)).2.2.2.2,
   (C10_empty_suffrage_lost [⟨1, false⟩] [(1, true)] (by decide)).1,
   (C10_empty_suffrage_lost [⟨1, false⟩] [(1, true)] (by decide)).2.1⟩

end RaftTracker
